import Mathlib

/-!
Shallow embedding of the `cpit` Go client library (a typed client for the
Cockpit headless-CMS HTTP API).  The definitions below mirror, function by
function, the request-construction-and-execution pipeline of `cpit.go`:
the shared default store, the functional options, request assembly
(path templating, query parameters, JSON body encoding), the transport
executor `doHttp` (with its debug record), and the response interpreters
`run` / `runImage`, together with the operation facade (`GetItems`,
`UpsertItem`, `GetAssetLink`, `GetUploadLink`, ...).

The HTTP transport itself is out of scope for the library (any client may be
injected); it is modelled by passing the transport outcome — either a
response or a transport error — as an explicit argument.
-/

namespace Cpit

/-- JSON values, the wire model for request/response bodies.
Numbers are restricted to integers, which covers every value the
library itself produces (`strconv.Itoa` renderings and the CMS metadata). -/
inductive Json where
  | null : Json
  | bool : Bool → Json
  | num : Int → Json
  | str : String → Json
  | arr : List Json → Json
  | obj : List (String × Json) → Json

instance : Inhabited Json := ⟨Json.null⟩

/-- Escape one character the way Go's `encoding/json` encoder does
(HTML escaping enabled, as `json.NewEncoder` defaults to). -/
def escapeChar (c : Char) : String :=
  if c = '"' then "\\\""
  else if c = '\\' then "\\\\"
  else if c = '\n' then "\\n"
  else if c = '\r' then "\\r"
  else if c = '\t' then "\\t"
  else if c = '<' then "\\u003c"
  else if c = '>' then "\\u003e"
  else if c = '&' then "\\u0026"
  else String.singleton c

/-- Go `encoding/json` string escaping applied to a whole string. -/
def escapeString (s : String) : String :=
  String.join (s.toList.map escapeChar)

mutual
/-- Compact JSON rendering, as Go's `encoding/json` produces
(no spaces, fields in struct/list order). -/
def encodeJson : Json → String
  | .null => "null"
  | .bool true => "true"
  | .bool false => "false"
  | .num n => toString n
  | .str s => "\"" ++ escapeString s ++ "\""
  | .arr xs => "[" ++ encodeJsonList xs ++ "]"
  | .obj fs => "\x7b" ++ encodeJsonFields fs ++ "\x7d"

/-- Render a comma-separated list of JSON values. -/
def encodeJsonList : List Json → String
  | [] => ""
  | [x] => encodeJson x
  | x :: xs => encodeJson x ++ "," ++ encodeJsonList xs

/-- Render a comma-separated list of JSON object members. -/
def encodeJsonFields : List (String × Json) → String
  | [] => ""
  | [(k, v)] => "\"" ++ escapeString k ++ "\":" ++ encodeJson v
  | (k, v) :: fs => "\"" ++ escapeString k ++ "\":" ++ encodeJson v ++ "," ++ encodeJsonFields fs
end

/-- `json.Encoder.Encode` writes the compact rendering followed by a newline. -/
def encoderEncode (j : Json) : String :=
  encodeJson j ++ "\n"

/-- Go `strings.TrimSuffix s suffix`: drops `suffix` from the end of `s`,
once, when present. -/
def goTrimSuffix (s suffix : String) : String :=
  if suffix.toList.isSuffixOf s.toList then
    String.mk (s.toList.take (s.toList.length - suffix.toList.length))
  else s

/-- Go `strings.TrimPrefix s pre` (trim a leading occurrence): drops `pre`
from the start of `s`, once, when present. -/
def goTrimLeading (s pre : String) : String :=
  if pre.toList.isPrefixOf s.toList then
    String.mk (s.toList.drop pre.toList.length)
  else s

/-- Query parameters: Go's `url.Values` restricted to the operations the
library uses (`Set`, `Has`, `Encode`).  Since only `Set` ever writes, every
key holds exactly one value, so an association list is a faithful model of
the Go `map[string][]string`. -/
def Params : Type := List (String × String)

instance : DecidableEq Params := inferInstanceAs (DecidableEq (List (String × String)))

instance : Repr Params := inferInstanceAs (Repr (List (String × String)))

/-- `url.Values.Set k v`: replace whatever is stored under `k` by the single
value `v`. -/
def Params.set (p : Params) (k v : String) : Params :=
  (List.filter (fun kv => kv.1 ≠ k) p) ++ [(k, v)]

/-- `url.Values.Has k`: is some value stored under `k`? -/
def Params.has (p : Params) (k : String) : Bool :=
  List.any p (fun kv => kv.1 == k)

/-- Unreserved byte for Go's `url.QueryEscape`: A–Z, a–z, 0–9, `-_.~`. -/
def queryUnreserved (c : Char) : Bool :=
  c.isAlphanum || c = '-' || c = '_' || c = '.' || c = '~'

/-- Uppercase hex digit for a value below 16. -/
def hexDigit (n : Nat) : Char :=
  if n < 10 then Char.ofNat (n + 48) else Char.ofNat (n - 10 + 65)

/-- Go `url.QueryEscape` on one UTF-8 byte: space becomes `+`, unreserved
bytes pass through, everything else is percent-encoded in uppercase hex. -/
def queryEscapeByte (b : Nat) : String :=
  if b = 32 then "+"
  else if b < 128 && queryUnreserved (Char.ofNat b) then String.singleton (Char.ofNat b)
  else "%" ++ String.singleton (hexDigit (b / 16 % 16)) ++ String.singleton (hexDigit (b % 16))

/-- Go `url.QueryEscape`, applied byte-wise to the UTF-8 form of `s`. -/
def queryEscape (s : String) : String :=
  String.join ((s.toUTF8.toList.map (fun b => b.toNat)).map queryEscapeByte)

/-- The key/value pairs of `p` in the order `url.Values.Encode` emits them:
sorted by key (Go sorts the map's keys before rendering). -/
def Params.encodePairs (p : Params) : List (String × String) :=
  List.insertionSort (fun a b : String × String => a.1 ≤ b.1) p

/-- `url.Values.Encode`: sorted keys, each rendered `k=v` with query
escaping, joined by `&`. -/
def Params.encode (p : Params) : String :=
  String.intercalate "&"
    ((Params.encodePairs p).map (fun kv => queryEscape kv.1 ++ "=" ++ queryEscape kv.2))

/-- The keys of a parameter collection, in storage order. -/
def Params.keys (p : Params) : List String :=
  List.map Prod.fst p

/-- Error taxonomy of the library.  The Go code returns plain `error`
values; each distinct `errors.New`/`fmt.Errorf` site (and the `ErrNotFound`
sentinel) is one constructor, carrying the formatted message parts. -/
inductive CpitError where
  /-- the `ErrNotFound` sentinel, returned on HTTP 404 -/
  | notFound : CpitError
  /-- `fmt.Errorf("unexpected status code %d %s: %s", ...)` -/
  | unexpectedStatus : Nat → String → String → CpitError
  /-- an `errors.New` validation failure from an option or from `doHttp`
  preconditions, carrying the Go error message -/
  | validation : String → CpitError
  /-- the injected transport failed; carries the transport error text -/
  | transport : String → CpitError
  /-- the response body could not be decoded into the output type -/
  | decodeError : String → CpitError
deriving DecidableEq, Repr

/-- The process-wide default store (`defaultHttpClient`, `defaultBaseUrl`,
`defaultApiKey`, `defaultDebugMode`).  The mutex protecting it in Go
serializes access; the store itself is this record. -/
structure Defaults where
  httpClient : Option Unit
  baseURL : String
  apiKey : String
  debugMode : Bool
deriving DecidableEq, Repr

/-- `SetDefaultHttpClient`. -/
def SetDefaultHttpClient (d : Defaults) (c : Option Unit) : Defaults :=
  { d with httpClient := c }

/-- `SetDefaultBaseUrl`: stores the url with `strings.TrimSuffix(url, "/")`. -/
def SetDefaultBaseUrl (d : Defaults) (url : String) : Defaults :=
  { d with baseURL := goTrimSuffix url "/" }

/-- `SetDefaultApiKey`. -/
def SetDefaultApiKey (d : Defaults) (key : String) : Defaults :=
  { d with apiKey := key }

/-- `SetDefaultDebugMode`. -/
def SetDefaultDebugMode (d : Defaults) (enabled : Bool) : Defaults :=
  { d with debugMode := enabled }

/-- `cockpitReq`: the request-in-progress.  The HTTP client handle is
abstracted to `Option Unit` (present / absent); the body is a JSON value or
absent, matching `body interface{}` as the v2 code uses it (only ever `nil`
or a JSON-encodable value). -/
structure cockpitReq where
  httpClient : Option Unit
  apiKey : String
  baseURL : String
  method : String
  path : String
  params : Params
  body : Option Json
  debug : Bool

/-- `newCockpitReq`: snapshot the defaults into a fresh request with an
empty parameter collection. -/
def newCockpitReq (d : Defaults) : cockpitReq :=
  { httpClient := d.httpClient
    apiKey := d.apiKey
    baseURL := d.baseURL
    method := ""
    path := ""
    params := ([] : Params)
    body := none
    debug := d.debugMode }

/-- `optionFn`: an option either mutates the request or fails validation.
Go mutates through a pointer; here the mutation is explicit state passing. -/
def OptionFn : Type := cockpitReq → Except CpitError cockpitReq

/-- `applyOptions`: apply the options in order, stopping at the first
error. -/
def applyOptions (r : cockpitReq) (opts : List OptionFn) : Except CpitError cockpitReq :=
  match opts with
  | [] => .ok r
  | o :: rest =>
    match o r with
    | .error e => .error e
    | .ok r2 => applyOptions r2 rest

/-- `WithHttpClient`. -/
def WithHttpClient (c : Option Unit) : OptionFn := fun r =>
  .ok { r with httpClient := c }

/-- `WithBaseURL`: rejects the empty string, trims one trailing slash. -/
def WithBaseURL (url : String) : OptionFn := fun r =>
  if url = "" then .error (.validation "url is required")
  else .ok { r with baseURL := goTrimSuffix url "/" }

/-- `WithApiKey`: rejects the empty string. -/
def WithApiKey (key : String) : OptionFn := fun r =>
  if key = "" then .error (.validation "apikey is required")
  else .ok { r with apiKey := key }

/-- `WithDebugMode`. -/
def WithDebugMode (enabled : Bool) : OptionFn := fun r =>
  .ok { r with debug := enabled }

/-- `WithResizeMode`: value must be one of the five resize modes. -/
def WithResizeMode (m : String) : OptionFn := fun r =>
  if m ≠ "thumbnail" ∧ m ≠ "bestFit" ∧ m ≠ "resize" ∧ m ≠ "fitToWidth" ∧ m ≠ "fitToHeight" then
    .error (.validation "invalid resize mode")
  else .ok { r with params := r.params.set "m" m }

/-- `WithWidth`: must be at least 1. -/
def WithWidth (w : Int) : OptionFn := fun r =>
  if w < 1 then .error (.validation "width must be greater than 0")
  else .ok { r with params := r.params.set "w" (toString w) }

/-- `WithHeight`: must be at least 1. -/
def WithHeight (h : Int) : OptionFn := fun r =>
  if h < 1 then .error (.validation "height must be greater than 0")
  else .ok { r with params := r.params.set "h" (toString h) }

/-- `WithQuality`: must lie in [1, 100]. -/
def WithQuality (q : Int) : OptionFn := fun r =>
  if q < 1 ∨ q > 100 then .error (.validation "quality must be between 1 and 100")
  else .ok { r with params := r.params.set "q" (toString q) }

/-- `WithMime`: value must be one of the six mime types. -/
def WithMime (mime : String) : OptionFn := fun r =>
  if mime ≠ "auto" ∧ mime ≠ "gif" ∧ mime ≠ "jpeg" ∧ mime ≠ "png" ∧ mime ≠ "webp" ∧ mime ≠ "bmp" then
    .error (.validation "invalid mime type")
  else .ok { r with params := r.params.set "mime" mime }

/-- `WithLocale`: unvalidated. -/
def WithLocale (locale : String) : OptionFn := fun r =>
  .ok { r with params := r.params.set "locale" locale }

/-- `WithFields`: unvalidated. -/
def WithFields (fields : String) : OptionFn := fun r =>
  .ok { r with params := r.params.set "fields" fields }

/-- `WithFilter`: unvalidated. -/
def WithFilter (filter : String) : OptionFn := fun r =>
  .ok { r with params := r.params.set "filter" filter }

/-- `WithSort`: unvalidated. -/
def WithSort (sort : String) : OptionFn := fun r =>
  .ok { r with params := r.params.set "sort" sort }

/-- `WithLimit`: must be at least 1. -/
def WithLimit (limit : Int) : OptionFn := fun r =>
  if limit < 1 then .error (.validation "limit must be greater than 0")
  else .ok { r with params := r.params.set "limit" (toString limit) }

/-- `WithSkip`: must be at least 0. -/
def WithSkip (skip : Int) : OptionFn := fun r =>
  if skip < 0 then .error (.validation "skip must be greater than or equal to 0")
  else .ok { r with params := r.params.set "skip" (toString skip) }

/-- `WithPopulate`: encoded as "1"/"0". -/
def WithPopulate (enabled : Bool) : OptionFn := fun r =>
  .ok { r with params := r.params.set "populate" (if enabled then "1" else "0") }

/-- The options the library exports.  `optionFn` is unexported in Go, so a
caller can only ever pass options built by the `With*` constructors; this
inductive enumerates them. -/
inductive LibOption where
  | httpClient (c : Option Unit)
  | baseURL (u : String)
  | apiKey (k : String)
  | debugMode (b : Bool)
  | resizeMode (m : String)
  | width (w : Int)
  | height (h : Int)
  | quality (q : Int)
  | mime (m : String)
  | locale (l : String)
  | fields (f : String)
  | filter (f : String)
  | sort (s : String)
  | limit (n : Int)
  | skip (n : Int)
  | populate (b : Bool)

/-- Interpret a library option as the option function it constructs. -/
def LibOption.toFn : LibOption → OptionFn
  | .httpClient c => WithHttpClient c
  | .baseURL u => WithBaseURL u
  | .apiKey k => WithApiKey k
  | .debugMode b => WithDebugMode b
  | .resizeMode m => WithResizeMode m
  | .width w => WithWidth w
  | .height h => WithHeight h
  | .quality q => WithQuality q
  | .mime m => WithMime m
  | .locale l => WithLocale l
  | .fields f => WithFields f
  | .filter f => WithFilter f
  | .sort s => WithSort s
  | .limit n => WithLimit n
  | .skip n => WithSkip n
  | .populate b => WithPopulate b

/-- An HTTP response as the injected transport delivers it:
status code and raw body bytes. -/
structure Resp where
  status : Nat
  body : String
deriving DecidableEq, Repr

/-- The outcome of `httpClient.Do`: a response, or a transport error. -/
def TransportResult : Type := Except String Resp

/-- Go `http.StatusText` for the codes relevant here (it returns the empty
string for codes it does not know). -/
def statusText (code : Nat) : String :=
  if code = 200 then "OK"
  else if code = 201 then "Created"
  else if code = 204 then "No Content"
  else if code = 301 then "Moved Permanently"
  else if code = 302 then "Found"
  else if code = 400 then "Bad Request"
  else if code = 401 then "Unauthorized"
  else if code = 403 then "Forbidden"
  else if code = 404 then "Not Found"
  else if code = 429 then "Too Many Requests"
  else if code = 500 then "Internal Server Error"
  else if code = 502 then "Bad Gateway"
  else if code = 503 then "Service Unavailable"
  else ""

/-- The request URL `doHttp` assembles:
`fmt.Sprintf("%s%s?%s", r.baseURL, r.path, r.params.Encode())`. -/
def requestUrl (r : cockpitReq) : String :=
  r.baseURL ++ r.path ++ "?" ++ Params.encode r.params

/-- The request body `doHttp` assembles: an empty buffer, or the JSON
encoding of `r.body` (with the encoder's trailing newline). -/
def requestBody (r : cockpitReq) : String :=
  match r.body with
  | none => ""
  | some j => encoderEncode j

/-- The outgoing HTTP request, as handed to the transport. -/
structure HttpRequest where
  method : String
  url : String
  apiKeyHeader : String
  contentTypeHeader : String
  body : String
deriving DecidableEq, Repr

/-- The outgoing request `doHttp` builds before calling `httpClient.Do`:
URL, body, and the two fixed headers `Api-Key` and `Content-Type`. -/
def outgoingRequest (r : cockpitReq) : HttpRequest :=
  { method := r.method
    url := requestUrl r
    apiKeyHeader := r.apiKey
    contentTypeHeader := "application/json"
    body := requestBody r }

/-- The debug record `doHttp` formats:
`fmt.Sprintf("[Cockpit][%s] %s %s | %s\n", sc, r.method, url, body)`,
where `sc`/`body` come from the response, or are `"ERROR"`/the error text
when the transport failed. -/
def debugRecord (t : TransportResult) (method url : String) : String :=
  match t with
  | .ok resp =>
    "[Cockpit][" ++ toString resp.status ++ " " ++ statusText resp.status ++ "] "
      ++ method ++ " " ++ url ++ " | " ++ resp.body ++ "\n"
  | .error e =>
    "[Cockpit][ERROR] " ++ method ++ " " ++ url ++ " | " ++ e ++ "\n"

/-- `doHttp`: validates API key and base URL, builds the outgoing request,
invokes the transport (whose outcome `t` is an argument), emits the debug
record when debug mode is on, and returns the transport outcome.
The second component is the list of debug records emitted. -/
def doHttp (r : cockpitReq) (t : TransportResult) : Except CpitError Resp × List String :=
  if r.apiKey = "" then
    (.error (.validation "apiKey is required. either set it as default or pass it as an option"), [])
  else if r.baseURL = "" then
    (.error (.validation "baseURL is required. either set it as default or pass it as an option"), [])
  else
    let url := requestUrl r
    let logs := if r.debug then [debugRecord t r.method url] else []
    (match t with
     | .error e => .error (.transport e)
     | .ok resp => .ok resp, logs)

/-- The status-interpretation step shared by `run`:
404 becomes the `ErrNotFound` sentinel, any other non-200 becomes the
`unexpected status code` error carrying code, status text and raw body. -/
def runStatus (r : cockpitReq) (t : TransportResult) : Except CpitError Resp :=
  match (doHttp r t).1 with
  | .error e => .error e
  | .ok resp =>
    if resp.status = 404 then .error .notFound
    else if resp.status ≠ 200 then
      .error (.unexpectedStatus resp.status (statusText resp.status) resp.body)
    else .ok resp

/-- `run` with a non-nil output: on 200, decode the body into the output. -/
def runWith {α : Type} (r : cockpitReq) (t : TransportResult)
    (dec : String → Except CpitError α) : Except CpitError α :=
  match runStatus r t with
  | .error e => .error e
  | .ok resp => dec resp.body

/-- `run` with a nil output (`DeleteItem`): on 200, succeed without
touching the body. -/
def runNoOutput (r : cockpitReq) (t : TransportResult) : Except CpitError Unit :=
  match runStatus r t with
  | .error e => .error e
  | .ok _ => .ok ()

/-- `runImage`: same status interpretation, but on 200 the raw body is
returned as a string instead of being JSON-decoded. -/
def runImage (r : cockpitReq) (t : TransportResult) : Except CpitError String :=
  match (doHttp r t).1 with
  | .error e => .error e
  | .ok resp =>
    if resp.status = 404 then .error .notFound
    else if resp.status ≠ 200 then
      .error (.unexpectedStatus resp.status (statusText resp.status) resp.body)
    else .ok resp.body

/-- Skip JSON whitespace. -/
def skipWs : List Char → List Char
  | c :: cs => if c = ' ' ∨ c = '\n' ∨ c = '\t' ∨ c = '\r' then skipWs cs else c :: cs
  | [] => []

/-- Digit-string to number, most significant first. -/
def digitsToNat (ds : List Char) : Nat :=
  ds.foldl (fun acc c => acc * 10 + (c.toNat - 48)) 0

/-- Parse the body of a JSON string literal (the opening quote already
consumed), handling the standard escapes.  Fuel-indexed. -/
def parseStrChars : Nat → List Char → String → Option (String × List Char)
  | 0, _, _ => none
  | _ + 1, [], _ => none
  | fuel + 1, c :: cs, acc =>
    if c = '"' then some (acc, cs)
    else if c = '\\' then
      match cs with
      | [] => none
      | e :: cs2 =>
        if e = '"' then parseStrChars fuel cs2 (acc ++ "\"")
        else if e = '\\' then parseStrChars fuel cs2 (acc ++ "\\")
        else if e = '/' then parseStrChars fuel cs2 (acc ++ "/")
        else if e = 'n' then parseStrChars fuel cs2 (acc ++ "\n")
        else if e = 't' then parseStrChars fuel cs2 (acc ++ "\t")
        else if e = 'r' then parseStrChars fuel cs2 (acc ++ "\r")
        else if e = 'b' then parseStrChars fuel cs2 (acc.push (Char.ofNat 8))
        else if e = 'f' then parseStrChars fuel cs2 (acc.push (Char.ofNat 12))
        else if e = 'u' then
          match cs2 with
          | h1 :: h2 :: h3 :: h4 :: cs3 =>
            let hv : Char → Option Nat := fun h =>
              if h.isDigit then some (h.toNat - 48)
              else if 'a' ≤ h ∧ h ≤ 'f' then some (h.toNat - 87)
              else if 'A' ≤ h ∧ h ≤ 'F' then some (h.toNat - 55)
              else none
            match hv h1, hv h2, hv h3, hv h4 with
            | some a, some b, some c', some d =>
              parseStrChars fuel cs3 (acc.push (Char.ofNat (((a * 16 + b) * 16 + c') * 16 + d)))
            | _, _, _, _ => none
          | _ => none
        else none
    else parseStrChars fuel cs (acc.push c)

mutual
/-- Parse one JSON value (fuel-indexed recursive-descent parser, modelling
`json.Decoder.Decode` reading one value from the stream).  Numbers are
restricted to (signed) integers. -/
def parseValue : Nat → List Char → Option (Json × List Char)
  | 0, _ => none
  | fuel + 1, cs =>
    match skipWs cs with
    | 'n' :: 'u' :: 'l' :: 'l' :: rest => some (.null, rest)
    | 't' :: 'r' :: 'u' :: 'e' :: rest => some (.bool true, rest)
    | 'f' :: 'a' :: 'l' :: 's' :: 'e' :: rest => some (.bool false, rest)
    | '"' :: rest =>
      match parseStrChars (fuel + 1) rest "" with
      | some (s, r2) => some (.str s, r2)
      | none => none
    | '[' :: rest =>
      match skipWs rest with
      | ']' :: r2 => some (.arr [], r2)
      | r2 => parseArrayItems fuel r2 []
    | '{' :: rest =>
      match skipWs rest with
      | '}' :: r2 => some (.obj [], r2)
      | r2 => parseObjItems fuel r2 []
    | '-' :: rest =>
      match rest.span Char.isDigit with
      | ([], _) => none
      | (ds, r2) => some (.num (-(digitsToNat ds : Int)), r2)
    | c :: rest =>
      if c.isDigit then
        match (c :: rest).span Char.isDigit with
        | (ds, r2) => some (.num (digitsToNat ds : Int), r2)
      else none
    | [] => none

/-- Parse the remaining comma-separated items of a non-empty JSON array. -/
def parseArrayItems : Nat → List Char → List Json → Option (Json × List Char)
  | 0, _, _ => none
  | fuel + 1, cs, acc =>
    match parseValue fuel cs with
    | none => none
    | some (v, rest) =>
      match skipWs rest with
      | ',' :: r2 => parseArrayItems fuel r2 (acc ++ [v])
      | ']' :: r2 => some (.arr (acc ++ [v]), r2)
      | _ => none

/-- Parse the remaining members of a non-empty JSON object. -/
def parseObjItems : Nat → List Char → List (String × Json) → Option (Json × List Char)
  | 0, _, _ => none
  | fuel + 1, cs, acc =>
    match skipWs cs with
    | '"' :: rest =>
      match parseStrChars (fuel + 1) rest "" with
      | none => none
      | some (k, r2) =>
        match skipWs r2 with
        | ':' :: r3 =>
          match parseValue fuel r3 with
          | none => none
          | some (v, r4) =>
            match skipWs r4 with
            | ',' :: r5 => parseObjItems fuel r5 (acc ++ [(k, v)])
            | '}' :: r5 => some (.obj (acc ++ [(k, v)]), r5)
            | _ => none
        | _ => none
    | _ => none
end

/-- Parse a response body as one JSON value, as `json.Decoder.Decode`
does (trailing bytes are left unread). -/
def parseJson (s : String) : Option Json :=
  (parseValue (s.length + 1) s.toList).map Prod.fst

/-- The `Items[T]` output shape: `{data: []T, meta: {total: int}}`, with
the item payload type `T` kept opaque as `Json`. -/
structure Items where
  data : List Json
  total : Int

instance : Inhabited Items := ⟨[], 0⟩

/-- Go decode of a JSON value into a slice (`[]T`): an array yields its
elements, `null` leaves the slice as initialized (empty), anything else is
a type-mismatch error. -/
def decodeList (j : Json) : Except CpitError (List Json) :=
  match j with
  | .null => .ok []
  | .arr xs => .ok xs
  | _ => .error (.decodeError "cannot unmarshal value into slice")

/-- Go decode of the members of the `meta` object into its `Total` field:
keys are processed in order, `total` must be a number (or `null`, which
leaves the current value), unknown keys are ignored. -/
def decodeMetaFields : List (String × Json) → Int → Except CpitError Int
  | [], t => .ok t
  | (k, v) :: fs, t =>
    if k = "total" then
      match v with
      | .null => decodeMetaFields fs t
      | .num n => decodeMetaFields fs n
      | _ => .error (.decodeError "cannot unmarshal value into total")
    else decodeMetaFields fs t

/-- Go decode of the members of the top-level object into `Items`:
`data` must be an array (or `null`), `meta` an object (or `null`), unknown
keys are ignored, later duplicates overwrite. -/
def decodeItemsFields : List (String × Json) → Items → Except CpitError Items
  | [], acc => .ok acc
  | (k, v) :: fs, acc =>
    if k = "data" then
      match v with
      | .null => decodeItemsFields fs acc
      | .arr xs => decodeItemsFields fs { acc with data := xs }
      | _ => .error (.decodeError "cannot unmarshal value into data")
    else if k = "meta" then
      match v with
      | .null => decodeItemsFields fs acc
      | .obj ms =>
        match decodeMetaFields ms acc.total with
        | .error e => .error e
        | .ok t => decodeItemsFields fs { acc with total := t }
      | _ => .error (.decodeError "cannot unmarshal value into meta")
    else decodeItemsFields fs acc

/-- Go decode of a JSON value into a zero-initialized `Items[T]`. -/
def decodeItems (j : Json) : Except CpitError Items :=
  match j with
  | .null => .ok ⟨[], 0⟩
  | .obj fs => decodeItemsFields fs ⟨[], 0⟩
  | _ => .error (.decodeError "cannot unmarshal value into Items")

/-- Decode a response body into `Items[T]` (parse, then unmarshal). -/
def decodeItemsBody (s : String) : Except CpitError Items :=
  match parseJson s with
  | none => .error (.decodeError "invalid JSON")
  | some j => decodeItems j

/-- Decode a response body into a slice `[]T` (parse, then unmarshal). -/
def decodeListBody (s : String) : Except CpitError (List Json) :=
  match parseJson s with
  | none => .error (.decodeError "invalid JSON")
  | some j => decodeList j

/-- Decode a response body into an opaque output value `T`. -/
def decodeJsonBody (s : String) : Except CpitError Json :=
  match parseJson s with
  | none => .error (.decodeError "invalid JSON")
  | some j => .ok j

/-- The request `GetItems` starts from: GET `/content/items/{model}` on a
fresh snapshot of the defaults. -/
def getItemsReq (d : Defaults) (model : String) : cockpitReq :=
  { newCockpitReq d with method := "GET", path := "/content/items/" ++ model }

/-- `GetItems`: GET `/content/items/{model}`; if both the `skip` and
`limit` query parameters were applied, decode the paginated envelope,
otherwise decode a bare list and wrap it with a zero total. -/
def GetItems (d : Defaults) (model : String) (opts : List OptionFn)
    (t : TransportResult) : Except CpitError Items :=
  match applyOptions (getItemsReq d model) opts with
  | .error e => .error e
  | .ok r =>
    if r.params.has "skip" && r.params.has "limit" then
      runWith r t decodeItemsBody
    else
      match runWith r t decodeListBody with
      | .error e => .error e
      | .ok l => .ok { data := l, total := 0 }

/-- `GetSingleton`: GET `/content/item/{model}`, decode into `T`. -/
def GetSingleton (d : Defaults) (model : String) (opts : List OptionFn)
    (t : TransportResult) : Except CpitError Json :=
  let r0 := { newCockpitReq d with method := "GET", path := "/content/item/" ++ model }
  match applyOptions r0 opts with
  | .error e => .error e
  | .ok r => runWith r t decodeJsonBody

/-- `GetItem`: GET `/content/item/{model}/{id}`, decode into `T`. -/
def GetItem (d : Defaults) (model id : String) (opts : List OptionFn)
    (t : TransportResult) : Except CpitError Json :=
  let r0 := { newCockpitReq d with method := "GET", path := "/content/item/" ++ model ++ "/" ++ id }
  match applyOptions r0 opts with
  | .error e => .error e
  | .ok r => runWith r t decodeJsonBody

/-- `UpsertItem` up to the point the request is fully assembled:
POST `/content/item/{model}` with body `dataWrapper{Data: data}`. -/
def UpsertItemReq (d : Defaults) (model : String) (data : Json)
    (opts : List OptionFn) : Except CpitError cockpitReq :=
  let r0 := { newCockpitReq d with
                method := "POST"
                path := "/content/item/" ++ model
                body := some (Json.obj [("data", data)]) }
  applyOptions r0 opts

/-- `UpsertItem`: assemble the request, execute, decode the result. -/
def UpsertItem (d : Defaults) (model : String) (data : Json)
    (opts : List OptionFn) (t : TransportResult) : Except CpitError Json :=
  match UpsertItemReq d model data opts with
  | .error e => .error e
  | .ok r => runWith r t decodeJsonBody

/-- `DeleteItem`: DELETE `/content/item/{model}/{id}`, no decode. -/
def DeleteItem (d : Defaults) (model id : String) (opts : List OptionFn)
    (t : TransportResult) : Except CpitError Unit :=
  let r0 := { newCockpitReq d with method := "DELETE", path := "/content/item/" ++ model ++ "/" ++ id }
  match applyOptions r0 opts with
  | .error e => .error e
  | .ok r => runNoOutput r t

/-- `GetImage`: GET `/assets/image/{id}` in raw mode. -/
def GetImage (d : Defaults) (id : String) (opts : List OptionFn)
    (t : TransportResult) : Except CpitError String :=
  let r0 := { newCockpitReq d with method := "GET", path := "/assets/image/" ++ id }
  match applyOptions r0 opts with
  | .error e => .error e
  | .ok r => runImage r t

/-- `GetAssetLink`: constructs
`{baseURL minus "/api" suffix}/assets/link/{id}` without any HTTP call. -/
def GetAssetLink (d : Defaults) (id : String) (opts : List OptionFn) :
    Except CpitError String :=
  let r0 := { newCockpitReq d with method := "GET", path := "/assets/" ++ id }
  match applyOptions r0 opts with
  | .error e => .error e
  | .ok r => .ok (goTrimSuffix r.baseURL "/api" ++ "/assets/link/" ++ id)

/-- `GetUploadLink`: constructs
`{baseURL minus "/api" suffix}/storage/uploads/{path minus leading "/"}`
without any HTTP call. -/
def GetUploadLink (d : Defaults) (path : String) (opts : List OptionFn) :
    Except CpitError String :=
  let r0 := { newCockpitReq d with method := "GET", path := "/assets/" ++ path }
  match applyOptions r0 opts with
  | .error e => .error e
  | .ok r => .ok (goTrimSuffix r.baseURL "/api" ++ "/storage/uploads/" ++ goTrimLeading path "/")

/-! Theorems. -/

/-- Splitting an option list: the second half runs on the state the first
half produced, and an error in the first half short-circuits. -/
theorem applyOptions_append (r : cockpitReq) (l1 l2 : List OptionFn) :
    applyOptions r (l1 ++ l2) =
      match applyOptions r l1 with
      | .error e => .error e
      | .ok r2 => applyOptions r2 l2 := by
  induction l1 generalizing r with
  | nil => rfl
  | cons o rest ih =>
    show applyOptions r (o :: (rest ++ l2)) = _
    cases h : o r with
    | error e => simp [applyOptions, h]
    | ok r2 => simp [applyOptions, h, ih]

/-- Concrete defaults used to instantiate witnesses. -/
def testDefaults : Defaults :=
  { httpClient := none, baseURL := "http://x", apiKey := "k", debugMode := false }

/-- C4: options are applied in the order supplied; if every option in `pre`
succeeds and the next option `o` fails with `e`, the whole application
returns that first error and the trailing options are never invoked (the
result does not depend on `rest`). -/
theorem C4_first_option_error_aborts (r r2 : cockpitReq) (pre rest : List OptionFn)
    (o : OptionFn) (e : CpitError)
    (hpre : applyOptions r pre = .ok r2) (ho : o r2 = .error e) :
    applyOptions r (pre ++ o :: rest) = .error e ∧
    applyOptions r (pre ++ o :: rest) = applyOptions r (pre ++ [o]) := by
  constructor
  · rw [applyOptions_append, hpre]
    simp [applyOptions, ho]
  · rw [applyOptions_append, applyOptions_append, hpre]
    simp [applyOptions, ho]

/-- Witness for C4: `WithLimit 10` succeeds, `WithQuality 0` fails, and the
pending `WithSkip 5` never runs. -/
theorem C4_first_option_error_aborts_witness :
    applyOptions (newCockpitReq testDefaults) ([WithLimit 10] ++ WithQuality 0 :: [WithSkip 5]) =
      .error (.validation "quality must be between 1 and 100") ∧
    applyOptions (newCockpitReq testDefaults) ([WithLimit 10] ++ WithQuality 0 :: [WithSkip 5]) =
      applyOptions (newCockpitReq testDefaults) ([WithLimit 10] ++ [WithQuality 0]) :=
  C4_first_option_error_aborts (newCockpitReq testDefaults)
    { newCockpitReq testDefaults with params := Params.set ([] : Params) "limit" "10" }
    [WithLimit 10] [WithSkip 5] (WithQuality 0)
    (.validation "quality must be between 1 and 100") (by rfl) (by rfl)

/-- C5: `SetDefaultBaseUrl` stores the url with a trailing slash stripped,
a later `newCockpitReq` snapshot carries the normalized value (in
particular `"https://x/"` yields `"https://x"`), and the per-call override
`WithBaseURL` strips the trailing slash of a non-empty argument the same
way. -/
theorem C5_base_url_trailing_slash_stripped (d : Defaults) (u : String) (r : cockpitReq) :
    (newCockpitReq (SetDefaultBaseUrl d u)).baseURL = goTrimSuffix u "/" ∧
    (newCockpitReq (SetDefaultBaseUrl d "https://x/")).baseURL = "https://x" ∧
    (u ≠ "" → WithBaseURL u r = .ok { r with baseURL := goTrimSuffix u "/" }) := by
  refine ⟨rfl, ?_, fun hu => ?_⟩
  · show goTrimSuffix "https://x/" "/" = "https://x"
    decide
  · simp [WithBaseURL, hu]

/-- Witness for C5 at `u = "https://x/"`. -/
theorem C5_base_url_trailing_slash_stripped_witness :
    (newCockpitReq (SetDefaultBaseUrl testDefaults "https://x/")).baseURL = "https://x" ∧
    WithBaseURL "https://x/" (newCockpitReq testDefaults) =
      .ok { newCockpitReq testDefaults with baseURL := goTrimSuffix "https://x/" "/" } :=
  ⟨(C5_base_url_trailing_slash_stripped testDefaults "https://x/" (newCockpitReq testDefaults)).2.1,
   (C5_base_url_trailing_slash_stripped testDefaults "https://x/" (newCockpitReq testDefaults)).2.2
     (by decide)⟩

/-- C7: `WithQuality q` succeeds iff `1 ≤ q ≤ 100` (boundaries included:
1 and 100 succeed, 0 and 101 fail with the validation error), and on
success it only sets the `q` parameter to the decimal rendering of `q`. -/
theorem C7_quality_bounds (q : Int) (r : cockpitReq) :
    ((∃ r2, WithQuality q r = .ok r2) ↔ 1 ≤ q ∧ q ≤ 100) ∧
    (1 ≤ q → q ≤ 100 →
      WithQuality q r = .ok { r with params := Params.set r.params "q" (toString q) }) ∧
    ((q < 1 ∨ q > 100) →
      WithQuality q r = .error (.validation "quality must be between 1 and 100")) ∧
    WithQuality 1 r = .ok { r with params := Params.set r.params "q" "1" } ∧
    WithQuality 100 r = .ok { r with params := Params.set r.params "q" "100" } ∧
    WithQuality 0 r = .error (.validation "quality must be between 1 and 100") ∧
    WithQuality 101 r = .error (.validation "quality must be between 1 and 100") := by
  refine ⟨⟨fun ⟨r2, hr2⟩ => ?_, fun ⟨h1, h2⟩ => ?_⟩, fun h1 h2 => ?_, fun h => ?_, ?_, ?_, ?_, ?_⟩
  · by_cases h : q < 1 ∨ q > 100
    · rw [WithQuality, if_pos h] at hr2
      exact absurd hr2 (by simp)
    · omega
  · exact ⟨_, by rw [WithQuality, if_neg (by omega)]⟩
  · rw [WithQuality, if_neg (by omega)]
  · rw [WithQuality, if_pos h]
  · rw [WithQuality, if_neg (by norm_num)]
    rfl
  · rw [WithQuality, if_neg (by norm_num)]
    rfl
  · rw [WithQuality, if_pos (by norm_num)]
  · rw [WithQuality, if_pos (by norm_num)]

/-- Witness for C7 at the boundary values on a concrete request. -/
theorem C7_quality_bounds_witness :
    WithQuality 1 (newCockpitReq testDefaults) =
      .ok { newCockpitReq testDefaults with
              params := Params.set (newCockpitReq testDefaults).params "q" (toString (1 : Int)) } ∧
    WithQuality 0 (newCockpitReq testDefaults) =
      .error (.validation "quality must be between 1 and 100") :=
  ⟨(C7_quality_bounds 1 (newCockpitReq testDefaults)).2.1 (by norm_num) (by norm_num),
   (C7_quality_bounds 0 (newCockpitReq testDefaults)).2.2.1 (by norm_num)⟩

/-- C9: `GetAssetLink` and `GetUploadLink` construct their URLs purely from
the base URL (with any `/api` suffix removed), the id, and the path (with a
leading slash removed); no transport outcome enters the computation. -/
theorem C9_link_construction (d : Defaults) (id p : String) :
    GetAssetLink d id [] = .ok (goTrimSuffix d.baseURL "/api" ++ "/assets/link/" ++ id) ∧
    GetUploadLink d p [] =
      .ok (goTrimSuffix d.baseURL "/api" ++ "/storage/uploads/" ++ goTrimLeading p "/") :=
  ⟨rfl, rfl⟩

/-- The transport executor validates the API key and base URL and then
hands back the transport outcome unchanged (wrapping a transport failure);
there is no other failure path in `doHttp`. -/
theorem doHttp_result (r : cockpitReq) (t : TransportResult)
    (hk : r.apiKey ≠ "") (hb : r.baseURL ≠ "") :
    (doHttp r t).1 =
      (match t with
       | .error e => .error (.transport e)
       | .ok resp => .ok resp) := by
  simp [doHttp, hk, hb]

/-- The debug records `doHttp` emits, as a function of its validation
outcome and the debug flag. -/
theorem doHttp_logs (r : cockpitReq) (t : TransportResult) :
    (doHttp r t).2 =
      if r.apiKey = "" then []
      else if r.baseURL = "" then []
      else if r.debug then [debugRecord t r.method (requestUrl r)] else [] := by
  by_cases h1 : r.apiKey = "" <;> by_cases h2 : r.baseURL = "" <;> simp [doHttp, h1, h2]

/-- C3: on an executed HTTP call, status 404 yields the `NotFound`
sentinel (in both decode mode and raw image mode), any other non-200
status yields `unexpectedStatus` carrying the original code, its status
text and the raw body, and a 200 with no output target succeeds without
decoding the body. -/
theorem C3_status_interpretation (r : cockpitReq) (resp : Resp)
    (hk : r.apiKey ≠ "") (hb : r.baseURL ≠ "") :
    (resp.status = 404 →
       runStatus r (.ok resp) = .error .notFound ∧
       runImage r (.ok resp) = .error .notFound) ∧
    (resp.status ≠ 404 → resp.status ≠ 200 →
       runStatus r (.ok resp) =
         .error (.unexpectedStatus resp.status (statusText resp.status) resp.body) ∧
       runImage r (.ok resp) =
         .error (.unexpectedStatus resp.status (statusText resp.status) resp.body)) ∧
    (resp.status = 200 → runNoOutput r (.ok resp) = .ok ()) := by
  have hdo : (doHttp r (.ok resp)).1 = .ok resp := doHttp_result r (.ok resp) hk hb
  refine ⟨fun h404 => ⟨?_, ?_⟩, fun hn404 hn200 => ⟨?_, ?_⟩, fun h200 => ?_⟩
  · simp [runStatus, hdo, h404]
  · simp [runImage, hdo, h404]
  · simp [runStatus, hdo, hn404, hn200]
  · simp [runImage, hdo, hn404, hn200]
  · simp [runNoOutput, runStatus, hdo, h200]

/-- Witness for C3: 404 / 500 / 200 responses on a concrete request. -/
theorem C3_status_interpretation_witness :
    runStatus (newCockpitReq testDefaults) (.ok ⟨404, "gone"⟩) = .error .notFound ∧
    runStatus (newCockpitReq testDefaults) (.ok ⟨500, "boom"⟩) =
      .error (.unexpectedStatus 500 "Internal Server Error" "boom") ∧
    runNoOutput (newCockpitReq testDefaults) (.ok ⟨200, "not json"⟩) = .ok () :=
  ⟨((C3_status_interpretation (newCockpitReq testDefaults) ⟨404, "gone"⟩
      (by decide) (by decide)).1 rfl).1,
   ((C3_status_interpretation (newCockpitReq testDefaults) ⟨500, "boom"⟩
      (by decide) (by decide)).2.1 (by decide) (by decide)).1,
   (C3_status_interpretation (newCockpitReq testDefaults) ⟨200, "not json"⟩
      (by decide) (by decide)).2.2 rfl⟩

/-- C8: the debug record is independent of the API key — two calls that
differ only in (non-empty) API key emit identical record lists — and a
debug-enabled call emits exactly one record, the formatted line holding
status (or ERROR plus error text), method, URL and response/error body. -/
theorem C8_debug_record_never_contains_api_key (r1 r2 : cockpitReq) (t : TransportResult)
    (hk1 : r1.apiKey ≠ "") (hk2 : r2.apiKey ≠ "")
    (hdiff : r1 = { r2 with apiKey := r1.apiKey }) :
    (doHttp r1 t).2 = (doHttp r2 t).2 ∧
    (r1.baseURL ≠ "" → r1.debug = true →
       (doHttp r1 t).2 = [debugRecord t r1.method (requestUrl r1)]) := by
  have hb : r1.baseURL = r2.baseURL := by rw [hdiff]
  have hm : r1.method = r2.method := by rw [hdiff]
  have hpa : r1.params = r2.params := by rw [hdiff]
  have hpth : r1.path = r2.path := by rw [hdiff]
  have hd : r1.debug = r2.debug := by rw [hdiff]
  have hurl : requestUrl r1 = requestUrl r2 := by simp [requestUrl, hb, hpth, hpa]
  constructor
  · rw [doHttp_logs, doHttp_logs, if_neg hk1, if_neg hk2, hb, hurl, hm, hd]
  · intro hbase hdbg
    rw [doHttp_logs, if_neg hk1, if_neg hbase, if_pos hdbg]

/-- Witness for C8: two debug-enabled requests differing only in the API
key, on a failing transport, emit the same single record. -/
theorem C8_debug_record_never_contains_api_key_witness :
    (doHttp { newCockpitReq testDefaults with debug := true, apiKey := "secretA" }
        (.error "net down")).2 =
      (doHttp { newCockpitReq testDefaults with debug := true, apiKey := "secretB" }
        (.error "net down")).2 ∧
    (doHttp { newCockpitReq testDefaults with debug := true, apiKey := "secretA" }
        (.error "net down")).2 =
      [debugRecord (.error "net down")
        ({ newCockpitReq testDefaults with debug := true, apiKey := "secretA" } : cockpitReq).method
        (requestUrl { newCockpitReq testDefaults with debug := true, apiKey := "secretA" })] :=
  ⟨(C8_debug_record_never_contains_api_key
      { newCockpitReq testDefaults with debug := true, apiKey := "secretA" }
      { newCockpitReq testDefaults with debug := true, apiKey := "secretB" }
      (.error "net down") (by decide) (by decide) rfl).1,
   (C8_debug_record_never_contains_api_key
      { newCockpitReq testDefaults with debug := true, apiKey := "secretA" }
      { newCockpitReq testDefaults with debug := true, apiKey := "secretB" }
      (.error "net down") (by decide) (by decide) rfl).2 (by decide) rfl⟩

/-- None of the library's options touches the request body (the v2 API has
no body option: `UpsertItem` receives the data as a direct argument). -/
theorem libOption_preserves_body (o : LibOption) (r r2 : cockpitReq)
    (h : LibOption.toFn o r = .ok r2) : r2.body = r.body := by
  cases o <;>
    simp only [LibOption.toFn, WithHttpClient, WithBaseURL, WithApiKey, WithDebugMode,
      WithResizeMode, WithWidth, WithHeight, WithQuality, WithMime, WithLocale, WithFields,
      WithFilter, WithSort, WithLimit, WithSkip, WithPopulate] at h <;>
    (try split at h) <;> simp_all <;> rw [← h]

/-- Applying any sequence of library options leaves the body unchanged. -/
theorem applyOptions_lib_preserves_body (os : List LibOption) (r r2 : cockpitReq)
    (h : applyOptions r (os.map LibOption.toFn) = .ok r2) : r2.body = r.body := by
  induction os generalizing r with
  | nil =>
    simp only [List.map_nil, applyOptions] at h
    cases h
    rfl
  | cons o rest ih =>
    simp only [List.map_cons, applyOptions] at h
    cases ho : LibOption.toFn o r with
    | error e => rw [ho] at h; cases h
    | ok rmid =>
      rw [ho] at h
      exact (ih rmid h).trans (libOption_preserves_body o r rmid ho)

/-- The character-wise JSON string escaping leaves `"data"` unchanged. -/
theorem escapeString_data_lit : escapeString "data" = "data" := by decide

/-- Encoding the upsert wrapper yields exactly the `{"data": ...}`
envelope (followed by the encoder's newline). -/
theorem encoderEncode_dataWrapper (j : Json) :
    encoderEncode (Json.obj [("data", j)]) = "\x7b\"data\":" ++ encodeJson j ++ "\x7d\n" := by
  apply String.ext
  simp only [encoderEncode, encodeJson, encodeJsonFields, escapeString_data_lit,
    String.data_append, List.append_assoc]
  rfl

/-- C2: every upsert request body is exactly the JSON envelope
`{"data": d}` around the caller-supplied data (terminated by the JSON
encoder's newline); in particular data `{"title":"A"}` produces the body
`{"data":{"title":"A"}}`. -/
theorem C2_upsert_body_envelope (d : Defaults) (model : String) (data : Json)
    (os : List LibOption) (r : cockpitReq)
    (h : UpsertItemReq d model data (os.map LibOption.toFn) = .ok r) :
    (outgoingRequest r).body = "\x7b\"data\":" ++ encodeJson data ++ "\x7d\n" ∧
    (match UpsertItemReq testDefaults "m" (Json.obj [("title", Json.str "A")]) [] with
     | .ok r2 => (outgoingRequest r2).body
     | .error _ => "") = "\x7b\"data\":\x7b\"title\":\"A\"\x7d\x7d\n" := by
  constructor
  · have hb : r.body = some (Json.obj [("data", data)]) := by
      unfold UpsertItemReq at h
      exact applyOptions_lib_preserves_body os _ r h
    simp [outgoingRequest, requestBody, hb, encoderEncode_dataWrapper]
  · decide

/-- Witness for C2: concrete upsert of `{"title":"A"}` with no options. -/
theorem C2_upsert_body_envelope_witness :
    (outgoingRequest { newCockpitReq testDefaults with
        method := "POST"
        path := "/content/item/" ++ "m"
        body := some (Json.obj [("data", Json.obj [("title", Json.str "A")])]) }).body =
      "\x7b\"data\":" ++ encodeJson (Json.obj [("title", Json.str "A")]) ++ "\x7d\n" :=
  (C2_upsert_body_envelope testDefaults "m" (Json.obj [("title", Json.str "A")])
    [] _ rfl).1

/-- C6 counterexample: a POST request whose body was never set does not
fail with a missing-body error — `doHttp` in the current code performs no
body-presence check and hands the (empty-bodied) request to the transport,
returning the transport's response. -/
theorem C6_counterexample :
    (doHttp { httpClient := none, apiKey := "k", baseURL := "http://x", method := "POST",
              path := "/content/item/m", params := ([] : Params), body := none,
              debug := false }
        (.ok ⟨200, ""⟩)).1 = .ok ⟨200, ""⟩ ∧
    requestBody { httpClient := none, apiKey := "k", baseURL := "http://x", method := "POST",
                  path := "/content/item/m", params := ([] : Params), body := none,
                  debug := false } = "" := by
  exact ⟨rfl, rfl⟩

/-- C6 amended: the transport executor has no body-presence check at all —
for any method and body, once API key and base URL are non-empty `doHttp`
simply returns the transport outcome — and upsert requests always carry a
body anyway, because `UpsertItem` unconditionally wraps its data argument
into the `{"data": ...}` envelope before options are applied. -/
theorem C6_no_missing_body_check (r : cockpitReq) (t : TransportResult)
    (d : Defaults) (model : String) (data : Json) (os : List LibOption) (r2 : cockpitReq)
    (hk : r.apiKey ≠ "") (hb : r.baseURL ≠ "")
    (hup : UpsertItemReq d model data (os.map LibOption.toFn) = .ok r2) :
    (doHttp r t).1 =
      (match t with
       | .error e => .error (.transport e)
       | .ok resp => .ok resp) ∧
    r2.body = some (Json.obj [("data", data)]) := by
  refine ⟨doHttp_result r t hk hb, ?_⟩
  unfold UpsertItemReq at hup
  exact applyOptions_lib_preserves_body os _ r2 hup

/-- Witness for C6 (amended): a bodiless DELETE request is passed through,
and a concrete upsert request carries the wrapped body. -/
theorem C6_no_missing_body_check_witness :
    (doHttp { newCockpitReq testDefaults with method := "DELETE", path := "/content/item/m/i" }
        (.ok ⟨200, "\x7b\x7d"⟩)).1 = .ok ⟨200, "\x7b\x7d"⟩ ∧
    ({ newCockpitReq testDefaults with
        method := "POST"
        path := "/content/item/" ++ "m"
        body := some (Json.obj [("data", Json.num 7)]) } : cockpitReq).body =
      some (Json.obj [("data", Json.num 7)]) :=
  C6_no_missing_body_check
    { newCockpitReq testDefaults with method := "DELETE", path := "/content/item/m/i" }
    (.ok ⟨200, "\x7b\x7d"⟩) testDefaults "m" (Json.num 7) [] _ (by decide) (by decide) rfl

/-- `url.Values.Set` is last-write-wins: setting the same key twice equals
setting it once with the second value. -/
theorem Params_set_set (p : Params) (k v1 v2 : String) :
    Params.set (Params.set p k v1) k v2 = Params.set p k v2 := by
  unfold Params.set
  simp [List.filter_append, List.filter_filter]

/-- `url.Values.Set` keeps the keys duplicate-free. -/
theorem Params_set_keys_nodup (p : Params) (k v : String)
    (h : (Params.keys p).Nodup) : (Params.keys (Params.set p k v)).Nodup := by
  unfold Params.set Params.keys
  rw [List.map_append]
  refine List.Nodup.append ?_ (by simp) ?_
  · exact ((List.filter_sublist p).map Prod.fst).nodup h
  · intro a ha hb
    simp at hb
    subst hb
    obtain ⟨kv, hkv, rfl⟩ := List.mem_map.mp ha
    have := List.of_mem_filter hkv
    simp at this

/-- The sorted rendering order of `url.Values.Encode` preserves key
uniqueness. -/
theorem Params_encodePairs_keys_nodup (p : Params)
    (h : (Params.keys p).Nodup) : (List.map Prod.fst (Params.encodePairs p)).Nodup := by
  unfold Params.encodePairs
  have perm := List.perm_insertionSort (fun a b : String × String => a.1 ≤ b.1) p
  exact ((perm.map Prod.fst).symm).nodup h

/-- C10: every query-parameter option overwrites any previous value under
its key — `Set` is last-write-wins generically, applying any of the twelve
query options twice equals applying it once with the second value — and
keys stay unique through `Set` and through the sorted encoding order, so
each key appears at most once in the encoded URL. -/
theorem C10_query_options_overwrite :
    (∀ (p : Params) (k v1 v2 : String),
       Params.set (Params.set p k v1) k v2 = Params.set p k v2) ∧
    (∀ (r : cockpitReq) (m1 m2 : String),
       ¬(m1 ≠ "thumbnail" ∧ m1 ≠ "bestFit" ∧ m1 ≠ "resize" ∧ m1 ≠ "fitToWidth" ∧
           m1 ≠ "fitToHeight") →
       ¬(m2 ≠ "thumbnail" ∧ m2 ≠ "bestFit" ∧ m2 ≠ "resize" ∧ m2 ≠ "fitToWidth" ∧
           m2 ≠ "fitToHeight") →
       applyOptions r [WithResizeMode m1, WithResizeMode m2] =
         applyOptions r [WithResizeMode m2]) ∧
    (∀ (r : cockpitReq) (w1 w2 : Int), 1 ≤ w1 → 1 ≤ w2 →
       applyOptions r [WithWidth w1, WithWidth w2] = applyOptions r [WithWidth w2]) ∧
    (∀ (r : cockpitReq) (h1 h2 : Int), 1 ≤ h1 → 1 ≤ h2 →
       applyOptions r [WithHeight h1, WithHeight h2] = applyOptions r [WithHeight h2]) ∧
    (∀ (r : cockpitReq) (q1 q2 : Int), 1 ≤ q1 → q1 ≤ 100 → 1 ≤ q2 → q2 ≤ 100 →
       applyOptions r [WithQuality q1, WithQuality q2] = applyOptions r [WithQuality q2]) ∧
    (∀ (r : cockpitReq) (m1 m2 : String),
       ¬(m1 ≠ "auto" ∧ m1 ≠ "gif" ∧ m1 ≠ "jpeg" ∧ m1 ≠ "png" ∧ m1 ≠ "webp" ∧ m1 ≠ "bmp") →
       ¬(m2 ≠ "auto" ∧ m2 ≠ "gif" ∧ m2 ≠ "jpeg" ∧ m2 ≠ "png" ∧ m2 ≠ "webp" ∧ m2 ≠ "bmp") →
       applyOptions r [WithMime m1, WithMime m2] = applyOptions r [WithMime m2]) ∧
    (∀ (r : cockpitReq) (l1 l2 : String),
       applyOptions r [WithLocale l1, WithLocale l2] = applyOptions r [WithLocale l2]) ∧
    (∀ (r : cockpitReq) (f1 f2 : String),
       applyOptions r [WithFields f1, WithFields f2] = applyOptions r [WithFields f2]) ∧
    (∀ (r : cockpitReq) (f1 f2 : String),
       applyOptions r [WithFilter f1, WithFilter f2] = applyOptions r [WithFilter f2]) ∧
    (∀ (r : cockpitReq) (s1 s2 : String),
       applyOptions r [WithSort s1, WithSort s2] = applyOptions r [WithSort s2]) ∧
    (∀ (r : cockpitReq) (n1 n2 : Int), 1 ≤ n1 → 1 ≤ n2 →
       applyOptions r [WithLimit n1, WithLimit n2] = applyOptions r [WithLimit n2]) ∧
    (∀ (r : cockpitReq) (n1 n2 : Int), 0 ≤ n1 → 0 ≤ n2 →
       applyOptions r [WithSkip n1, WithSkip n2] = applyOptions r [WithSkip n2]) ∧
    (∀ (r : cockpitReq) (b1 b2 : Bool),
       applyOptions r [WithPopulate b1, WithPopulate b2] = applyOptions r [WithPopulate b2]) ∧
    (∀ (p : Params) (k v : String),
       (Params.keys p).Nodup → (Params.keys (Params.set p k v)).Nodup) ∧
    (∀ (p : Params),
       (Params.keys p).Nodup → (List.map Prod.fst (Params.encodePairs p)).Nodup) := by
  refine ⟨Params_set_set, ?_, ?_, ?_, ?_, ?_, ?_, ?_, ?_, ?_, ?_, ?_, ?_,
    Params_set_keys_nodup, Params_encodePairs_keys_nodup⟩
  · intro r m1 m2 hv1 hv2
    simp [applyOptions, WithResizeMode, if_neg hv1, if_neg hv2, Params_set_set]
  · intro r w1 w2 hv1 hv2
    have n1 : ¬ (w1 < 1) := by omega
    have n2 : ¬ (w2 < 1) := by omega
    simp [applyOptions, WithWidth, n1, n2, Params_set_set]
  · intro r h1 h2 hv1 hv2
    have n1 : ¬ (h1 < 1) := by omega
    have n2 : ¬ (h2 < 1) := by omega
    simp [applyOptions, WithHeight, n1, n2, Params_set_set]
  · intro r q1 q2 ha hb hc hd
    have n1 : ¬ (q1 < 1 ∨ q1 > 100) := by omega
    have n2 : ¬ (q2 < 1 ∨ q2 > 100) := by omega
    simp [applyOptions, WithQuality, n1, n2, Params_set_set]
  · intro r m1 m2 hv1 hv2
    simp [applyOptions, WithMime, if_neg hv1, if_neg hv2, Params_set_set]
  · intro r l1 l2
    simp [applyOptions, WithLocale, Params_set_set]
  · intro r f1 f2
    simp [applyOptions, WithFields, Params_set_set]
  · intro r f1 f2
    simp [applyOptions, WithFilter, Params_set_set]
  · intro r s1 s2
    simp [applyOptions, WithSort, Params_set_set]
  · intro r n1 n2 hv1 hv2
    have m1 : ¬ (n1 < 1) := by omega
    have m2 : ¬ (n2 < 1) := by omega
    simp [applyOptions, WithLimit, m1, m2, Params_set_set]
  · intro r n1 n2 hv1 hv2
    have m1 : ¬ (n1 < 0) := by omega
    have m2 : ¬ (n2 < 0) := by omega
    simp [applyOptions, WithSkip, m1, m2, Params_set_set]
  · intro r b1 b2
    simp [applyOptions, WithPopulate, Params_set_set]

/-- Witness for C10 on concrete values for each option family. -/
theorem C10_query_options_overwrite_witness :
    Params.set (Params.set ([] : Params) "q" "1") "q" "2" = Params.set ([] : Params) "q" "2" ∧
    applyOptions (newCockpitReq testDefaults) [WithResizeMode "thumbnail", WithResizeMode "resize"] =
      applyOptions (newCockpitReq testDefaults) [WithResizeMode "resize"] ∧
    applyOptions (newCockpitReq testDefaults) [WithWidth 1, WithWidth 2] =
      applyOptions (newCockpitReq testDefaults) [WithWidth 2] ∧
    applyOptions (newCockpitReq testDefaults) [WithHeight 3, WithHeight 4] =
      applyOptions (newCockpitReq testDefaults) [WithHeight 4] ∧
    applyOptions (newCockpitReq testDefaults) [WithQuality 1, WithQuality 100] =
      applyOptions (newCockpitReq testDefaults) [WithQuality 100] ∧
    applyOptions (newCockpitReq testDefaults) [WithMime "gif", WithMime "png"] =
      applyOptions (newCockpitReq testDefaults) [WithMime "png"] ∧
    applyOptions (newCockpitReq testDefaults) [WithLocale "en", WithLocale "de"] =
      applyOptions (newCockpitReq testDefaults) [WithLocale "de"] ∧
    applyOptions (newCockpitReq testDefaults) [WithFields "a", WithFields "b"] =
      applyOptions (newCockpitReq testDefaults) [WithFields "b"] ∧
    applyOptions (newCockpitReq testDefaults) [WithFilter "a", WithFilter "b"] =
      applyOptions (newCockpitReq testDefaults) [WithFilter "b"] ∧
    applyOptions (newCockpitReq testDefaults) [WithSort "a", WithSort "b"] =
      applyOptions (newCockpitReq testDefaults) [WithSort "b"] ∧
    applyOptions (newCockpitReq testDefaults) [WithLimit 10, WithLimit 20] =
      applyOptions (newCockpitReq testDefaults) [WithLimit 20] ∧
    applyOptions (newCockpitReq testDefaults) [WithSkip 0, WithSkip 5] =
      applyOptions (newCockpitReq testDefaults) [WithSkip 5] ∧
    applyOptions (newCockpitReq testDefaults) [WithPopulate true, WithPopulate false] =
      applyOptions (newCockpitReq testDefaults) [WithPopulate false] ∧
    (Params.keys (Params.set ([] : Params) "m" "resize")).Nodup ∧
    (List.map Prod.fst (Params.encodePairs (Params.set ([] : Params) "m" "resize"))).Nodup :=
  ⟨C10_query_options_overwrite.1 ([] : Params) "q" "1" "2",
   C10_query_options_overwrite.2.1 (newCockpitReq testDefaults) "thumbnail" "resize"
     (by decide) (by decide),
   C10_query_options_overwrite.2.2.1 (newCockpitReq testDefaults) 1 2 (by decide) (by decide),
   C10_query_options_overwrite.2.2.2.1 (newCockpitReq testDefaults) 3 4 (by decide) (by decide),
   C10_query_options_overwrite.2.2.2.2.1 (newCockpitReq testDefaults) 1 100
     (by decide) (by decide) (by decide) (by decide),
   C10_query_options_overwrite.2.2.2.2.2.1 (newCockpitReq testDefaults) "gif" "png"
     (by decide) (by decide),
   C10_query_options_overwrite.2.2.2.2.2.2.1 (newCockpitReq testDefaults) "en" "de",
   C10_query_options_overwrite.2.2.2.2.2.2.2.1 (newCockpitReq testDefaults) "a" "b",
   C10_query_options_overwrite.2.2.2.2.2.2.2.2.1 (newCockpitReq testDefaults) "a" "b",
   C10_query_options_overwrite.2.2.2.2.2.2.2.2.2.1 (newCockpitReq testDefaults) "a" "b",
   C10_query_options_overwrite.2.2.2.2.2.2.2.2.2.2.1 (newCockpitReq testDefaults) 10 20
     (by decide) (by decide),
   C10_query_options_overwrite.2.2.2.2.2.2.2.2.2.2.2.1 (newCockpitReq testDefaults) 0 5
     (by decide) (by decide),
   C10_query_options_overwrite.2.2.2.2.2.2.2.2.2.2.2.2.1 (newCockpitReq testDefaults) true false,
   C10_query_options_overwrite.2.2.2.2.2.2.2.2.2.2.2.2.2.1 ([] : Params) "m" "resize" (by decide),
   C10_query_options_overwrite.2.2.2.2.2.2.2.2.2.2.2.2.2.2
     (Params.set ([] : Params) "m" "resize") (by decide)⟩

/-- C1: the decode shape of a list call is chosen from the outgoing
request before execution — exactly when both the `skip` and `limit` query
parameters were set by the applied options the paginated envelope decoder
runs, otherwise the bare-sequence decoder runs and its result is wrapped
with a zero total — and the caller always receives the uniform `Items`
type: with `WithLimit 10` and `WithSkip 0` the envelope
`{"data":[...],"meta":{"total":42}}` decodes to total 42, and without skip
a bare array decodes to the same type with total 0. -/
theorem C1_get_items_pagination_shape :
    (∀ (d : Defaults) (model : String) (opts : List OptionFn) (t : TransportResult)
       (r : cockpitReq),
       applyOptions (getItemsReq d model) opts = .ok r →
       GetItems d model opts t =
         (if r.params.has "skip" && r.params.has "limit" then
            runWith r t decodeItemsBody
          else
            match runWith r t decodeListBody with
            | .error e => .error e
            | .ok l => .ok { data := l, total := 0 })) ∧
    GetItems testDefaults "m" [WithLimit 10, WithSkip 0]
        (.ok ⟨200, "\x7b\"data\":[true],\"meta\":\x7b\"total\":42\x7d\x7d"⟩) =
      .ok { data := [Json.bool true], total := 42 } ∧
    GetItems testDefaults "m" [WithLimit 10] (.ok ⟨200, "[true,false]"⟩) =
      .ok { data := [Json.bool true, Json.bool false], total := 0 } := by
  refine ⟨?_, ?_, ?_⟩
  · intro d model opts t r h
    unfold GetItems
    rw [h]
  · rfl
  · rfl

/-- Witness for C1: the general shape-selection rule instantiated on the
paginated example, with the options applied concretely. -/
theorem C1_get_items_pagination_shape_witness :
    GetItems testDefaults "m" [WithLimit 10, WithSkip 0]
        (.ok ⟨200, "\x7b\"data\":[true],\"meta\":\x7b\"total\":42\x7d\x7d"⟩) =
      (if (Params.set (Params.set ([] : Params) "limit" "10") "skip" "0").has "skip" &&
          (Params.set (Params.set ([] : Params) "limit" "10") "skip" "0").has "limit" then
         runWith { getItemsReq testDefaults "m" with
                     params := Params.set (Params.set ([] : Params) "limit" "10") "skip" "0" }
           (.ok ⟨200, "\x7b\"data\":[true],\"meta\":\x7b\"total\":42\x7d\x7d"⟩) decodeItemsBody
       else
         match runWith { getItemsReq testDefaults "m" with
                           params := Params.set (Params.set ([] : Params) "limit" "10") "skip" "0" }
                 (.ok ⟨200, "\x7b\"data\":[true],\"meta\":\x7b\"total\":42\x7d\x7d"⟩)
                 decodeListBody with
         | .error e => .error e
         | .ok l => .ok { data := l, total := 0 }) :=
  C1_get_items_pagination_shape.1 testDefaults "m" [WithLimit 10, WithSkip 0]
    (.ok ⟨200, "\x7b\"data\":[true],\"meta\":\x7b\"total\":42\x7d\x7d"⟩)
    { getItemsReq testDefaults "m" with
        params := Params.set (Params.set ([] : Params) "limit" "10") "skip" "0" }
    (by rfl)

end Cpit
